import Mathlib

/-!
# Verification of the scheduler-v4 email scheduling assistant

Shallow embedding of the core logic of the `max-delvita/scheduler-v4`
repository:

* the inbound-webhook handler (`src/unnamed/part_001`, the final and
  canonical variant of `app/api/schedule/route.ts`): loop guard, session
  resolution, new-session participant extraction, the participant response
  gate, decision execution, outbound send and conditional persistence,
  session-status update;
* `lib/emailUtils.ts` (`sendSchedulingEmail`): threading headers,
  individual-vs-group sending, the per-recipient send loop;
* the nudge cron handler (`app/api/cron/nudge/route.ts`): the
  per-participant nudge/escalation step;
* the superseded prototype handler (`src/app/api/schedule/route.ts`),
  embedded only where a claim explicitly cites it (the unconditional
  save of the assistant message after a send attempt).

Modelling conventions:
* The database is a `WorldState` value (sessions, messages, quarantine
  records, and an outbox recording every Postmark `sendEmail` call
  attempted).  Database writes are modelled as always succeeding; the
  source logs write errors and continues.
* The Postmark send client is an oracle `send : String → Option String`
  from the `To` field of a call to the provider message id (`some id`) or
  a send failure (`none`, the source's caught exception / `null` result).
* The decision engine (`generateObject`) is a black box; its structured
  output is a parameter `ai : AiDecision`.
* Timestamps are naturals (milliseconds); `new Date().toISOString()`
  becomes the `now : Nat` parameter of a run.
* JavaScript `null`/missing strings are `Option String` or, where the
  source only ever tests truthiness, the empty string.
* Session fields not inspected by any claim (meeting duration, location,
  timezone enrichment, confirmed datetime) are projected away; the
  regex enrichment helpers that populate them are advisory context only.
-/

namespace Scheduler

/-! ## Basic string helpers

All string operations are implemented by structural recursion over the
character list so that the kernel can evaluate them on concrete inputs
(the core `String` functions use position arithmetic and well-founded
recursion, which does not reduce definitionally). -/

/-- ASCII lower-casing of one character (JS `toLowerCase` restricted to
the ASCII range, which covers email addresses). -/
def lowerChar (c : Char) : Char :=
  if 65 ≤ c.toNat ∧ c.toNat ≤ 90 then Char.ofNat (c.toNat + 32) else c

/-- JS `String.prototype.toLowerCase` (ASCII). -/
def lowerS (s : String) : String :=
  String.mk (s.toList.map lowerChar)

/-- JS `String.prototype.startsWith`. -/
def startsWithS (s t : String) : Bool :=
  t.toList.isPrefixOf s.toList

/-- JS `String.prototype.endsWith`. -/
def endsWithS (s t : String) : Bool :=
  t.toList.reverse.isPrefixOf s.toList.reverse

/-- JS `String.prototype.trim`. -/
def trimS (s : String) : String :=
  String.mk (((s.toList.dropWhile Char.isWhitespace).reverse.dropWhile
    Char.isWhitespace).reverse)

/-- Substring occurrence over character lists. -/
def containsSubL : List Char → List Char → Bool
  | [], needle => needle.isEmpty
  | h :: t, needle => needle.isPrefixOf (h :: t) || containsSubL t needle

/-- JS `String.prototype.includes`. -/
def containsSub (hay needle : String) : Bool :=
  containsSubL hay.toList needle.toList

/-- Split a character list on newlines (JS `split('\n')`). -/
def splitLines : List Char → List (List Char)
  | [] => [[]]
  | c :: rest =>
      if c = '\n' then [] :: splitLines rest
      else
        match splitLines rest with
        | [] => [[c]]
        | h :: t => (c :: h) :: t

/-- JS `split('@')[0]` — the local part of an address. -/
def localPart (s : String) : String :=
  String.mk (s.toList.takeWhile (· ≠ '@'))

/-- JS `split('@')[1]` — the domain part of an address (JS `undefined`
becomes `""` for a string with no second segment). -/
def domainPart (s : String) : String :=
  match s.toList.dropWhile (· ≠ '@') with
  | [] => ""
  | _ :: rest => String.mk (rest.takeWhile (· ≠ '@'))

/-- The agent-hash test from the handler and the participant filter:
`lcEmail.startsWith(agentBase + '+') && lcEmail.endsWith('@' + agentDomain)`
(`agentEmail` is the already-lowercased configured sender address). -/
def isAgentHashed (agentEmail e : String) : Bool :=
  let l := lowerS e
  startsWithS l (localPart agentEmail ++ "+") && endsWithS l ("@" ++ domainPart agentEmail)

/-- JS `[...new Set(xs)]` — deduplication keeping first occurrences. -/
def dedupKeepFirst (xs : List String) : List String :=
  xs.foldl (fun acc x => if acc.contains x then acc else acc ++ [x]) []

/-- The greedy regex `<(.+)>` applied to a header value: the text between
the first `<` and the last `>` provided it is non-empty. -/
def extractAngle (s : String) : Option String :=
  let cs := s.toList
  match cs.findIdx? (· = '<') with
  | none => none
  | some i =>
      let after := cs.drop (i + 1)
      match (after.reverse.findIdx? (· = '>')) with
      | none => none
      | some jr =>
          let content := after.take (after.length - 1 - jr)
          if content.length = 0 then none else some (String.mk content)

/-- Cleaning of `In-Reply-To`: the bracket strip and `split('@')[0]` giving the
message id used for both lookup and persistence. -/
def cleanInReplyTo (raw : String) : String :=
  String.mk ((raw.toList.filter (fun c => c ≠ '<' && c ≠ '>')).takeWhile (· ≠ '@'))

/-! ## Data model -/

/-- One entry of the `participant_status_details` JSON column. -/
structure ParticipantStatusDetail where
  email : String
  status : String
  last_request_sent_at : Option Nat
deriving Repr, DecidableEq

/-- A row of `scheduling_sessions` (claim-relevant projection). -/
structure Session where
  session_id : String
  organizer_email : String
  organizer_name : String
  meeting_topic : String
  status : String
  participants : List String
  participant_status_details : List ParticipantStatusDetail
deriving Repr, DecidableEq

/-- A row of `session_messages` (claim-relevant projection). -/
structure StoredMessage where
  session_id : String
  postmark_message_id : String
  sender_email : String
  message_type : String
  body_text : String
deriving Repr, DecidableEq

/-- A row of `discarded_agent_emails` (claim-relevant projection). -/
structure QuarantineRecord where
  postmark_message_id : String
  from_email : String
  subject : String
  body_text : String
deriving Repr, DecidableEq

/-- One Postmark `sendEmail` API call as attempted by the code. -/
structure SendCall where
  toField : String
  subject : String
  textBody : String
  replyTo : String
  headers : List (String × String)
deriving Repr, DecidableEq

/-- The persistent store plus the stream of outbound send attempts. -/
structure WorldState where
  sessions : List Session
  messages : List StoredMessage
  quarantine : List QuarantineRecord
  outbox : List SendCall
deriving Repr, DecidableEq

/-- The claim-relevant projection of the Postmark inbound webhook payload. -/
structure InboundPayload where
  mailboxHash : String
  fromEmail : String
  fromName : String
  subject : String
  textBody : String
  messageId : String
  messageIdHeader : Option String
  inReplyToHeader : Option String
  referencesHeader : Option String
  toFull : List String
  ccFull : List String
  originalRecipient : String
deriving Repr, DecidableEq

/-- The `next_step` enumeration of `schedulingDecisionSchema`. -/
inductive NextStep where
  | request_clarification
  | ask_participant_availability
  | propose_time_to_organizer
  | propose_time_to_participant
  | send_final_confirmation
  | no_action_needed
  | error_cannot_schedule
deriving Repr, DecidableEq

/-- The structured output of the decision engine (`generateObject`). -/
structure AiDecision where
  next_step : NextStep
  recipients : List String
  email_body : String
deriving Repr, DecidableEq

/-- The observable outcome of one webhook run (the JSON status returned
to Postmark, with the decision attached on the full-processing path). -/
inductive HandlerResult where
  | ignoredMissingSender
  | discardedAgentLoop
  | failedFetchState
  | waitingForOthers
  | success (d : AiDecision)
deriving Repr, DecidableEq

/-- A send oracle on which every Postmark call fails (the caught
exception / `null` branch of the source). -/
def failSend : String → Option String := fun _ => none

/-! ## `lib/emailUtils.ts` — `sendSchedulingEmail` -/

/-- Bracket the triggering message id for headers, as in the source:
add `<...>` unless already present. -/
def formatTriggerId (id : String) : String :=
  if startsWithS id "<" && endsWithS id ">" then id else "<" ++ id ++ ">"

/-- Build the outgoing `References` value: inherited references with the
triggering id appended when not already contained. -/
def buildRefs (existing : Option String) (trig : String) : String :=
  let refs := existing.getD ""
  if containsSub refs trig then refs
  else (if refs ≠ "" then refs ++ " " else "") ++ trig

/-- The `sendSchedulingEmail` function of `lib/emailUtils.ts`.  Returns the provider
message id of the *first* email sent (or `none` when that send failed)
together with the list of Postmark calls attempted.  A failure of any send
after the first is caught and ignored; those calls are still attempted. -/
def sendSchedulingEmail (agentEmail : String) (send : String → Option String)
    (toRecipients : List String) (subject textBody sessionId triggeringMessageId : String)
    (triggeringReferencesHeader : Option String) (sendAsGroup : Bool) :
    Option String × List SendCall :=
  let replyToAddress := localPart agentEmail ++ "+" ++ sessionId ++ "@" ++ domainPart agentEmail
  let trig := formatTriggerId triggeringMessageId
  let refs := buildRefs triggeringReferencesHeader trig
  match toRecipients with
  | [] => (none, [])
  | first :: rest =>
    let isMultiple := rest ≠ []
    let group := isMultiple && sendAsGroup
    let toField := if group then String.intercalate ", " toRecipients else first
    let headers :=
      [("In-Reply-To", trig)]
        ++ (if trimS refs ≠ "" then [("References", trimS refs)] else [])
        ++ (if group then [] else [("X-PM-Tag", "individual-recipient")])
    let body :=
      if isMultiple && !sendAsGroup && !containsSub textBody "Please reply directly to me only"
      then textBody ++ "\n\nPlease reply directly to me only."
      else textBody
    let firstCall : SendCall := ⟨toField, subject, body, replyToAddress, headers⟩
    match send toField with
    | none => (none, [firstCall])
    | some firstId =>
        let remaining := if group then [] else rest
        (some firstId,
          firstCall :: remaining.map (fun r => ⟨r, subject, body, replyToAddress, headers⟩))

/-! ## Session resolution (`part_001`, session identification) -/

def findSession (w : WorldState) (sid : String) : Option Session :=
  w.sessions.find? (fun s => s.session_id == sid)

/-- The In-Reply-To fallback: clean the raw header and look up a stored
message carrying that id, adopting its session. -/
def inReplyToLookup (w : WorldState) (irt : Option String) : Option String :=
  match irt with
  | none => none
  | some raw =>
      (w.messages.find? (fun m => m.postmark_message_id == cleanInReplyTo raw)).map
        (·.session_id)

/-- Session identification: the MailboxHash is used first (when it looks
like a session id, `length > 10`, and a session row exists for it); the
In-Reply-To fallback is consulted only when that yields no session. -/
def resolveSessionId (w : WorldState) (mailboxHash : String) (irt : Option String) :
    Option String :=
  if mailboxHash.length > 10 && (findSession w mailboxHash).isSome
  then some mailboxHash
  else inReplyToLookup w irt


/-! ## New-session participant extraction (`part_001`) -/

/-- Leftmost case-insensitive match position of `/Participants?:/`:
`some (pos, len)` where `len` is the matched length (13 for
`participants:`, 12 for `participant:`). -/
def participantsLabelIdx : List Char → Option (Nat × Nat)
  | [] => none
  | c :: rest =>
      let l := (c :: rest).map lowerChar
      if ("participants:".toList).isPrefixOf l then some (0, 13)
      else if ("participant:".toList).isPrefixOf l then some (0, 12)
      else (participantsLabelIdx rest).map (fun p => (p.1 + 1, p.2))

/-- Does one of the capture terminators `\n\n` / `Thanks` / `Best regards`
(case-insensitively, per the regex `/i` flag) match at this position? -/
def isTermHere (cs : List Char) : Bool :=
  (['\n', '\n']).isPrefixOf cs
    || ("thanks".toList).isPrefixOf (cs.map lowerChar)
    || ("best regards".toList).isPrefixOf (cs.map lowerChar)

/-- The lazy capture `([\s\S]*?)` of the participants regex: the text up
to the earliest terminator position; `none` when no terminator follows
(the regex fails to match). -/
def captureUntilTerm : List Char → Option (List Char)
  | [] => none
  | c :: rest =>
      if isTermHere (c :: rest) then some []
      else (captureUntilTerm rest).map (c :: ·)

/-- The capture group of
`textBody.match(/Participants?:\s*\n?([\s\S]*?)(?:\n\n|Thanks|Best regards)/i)`.
The greedy `\s*\n?` is modelled as skipping all leading whitespace; in the
backtracking corner where the true regex instead matches with a
whitespace-only capture, both produce zero extracted addresses. -/
def participantsBlock (body : String) : Option String :=
  match participantsLabelIdx body.toList with
  | none => none
  | some (pos, len) =>
      let after := (body.toList.drop (pos + len)).dropWhile Char.isWhitespace
      (captureUntilTerm after).map String.mk

/-- The anchored-dash `replace` of the source: drop one leading dash. -/
def stripLeadingDash (s : String) : String :=
  if startsWithS s "-" then String.mk (s.toList.drop 1) else s

/-- The regex-fallback extraction: split the captured block on newlines,
strip a leading dash, trim, and keep entries containing `@`. -/
def fallbackExtract (body : String) : List String :=
  match participantsBlock body with
  | none => []
  | some blk =>
      ((((splitLines blk.toList).map String.mk).map
          (fun q => trimS (stripLeadingDash q))).filter
        (fun q => q.toList.contains '@'))

/-- The To/Cc-based participant set of a new session: deduplicated
`ToFull ++ CcFull` minus the sender and minus the agent's bare and
routing-token (`base+...@domain`) addresses. -/
def toCcParticipants (agentEmail : String) (p : InboundPayload) : List String :=
  (dedupKeepFirst (p.toFull ++ p.ccFull)).filter (fun e =>
    let l := lowerS e
    !(l == lowerS p.fromEmail) && !(l == agentEmail) && !(isAgentHashed agentEmail e))

/-- Participant extraction for a newly created session: To/Cc first; when
that yields nothing, the body-text fallback, which excludes only the
sender and the agent's *bare* address. -/
def newSessionParticipants (agentEmail : String) (p : InboundPayload) : List String :=
  let primary := toCcParticipants agentEmail p
  if primary ≠ [] then primary
  else
    (fallbackExtract p.textBody).filter (fun e =>
      !(lowerS e == lowerS p.fromEmail) && !(lowerS e == agentEmail))

/-! ## The webhook handler (`part_001` POST) -/

/-- The effective `Message-ID` used for threading and persistence:
`rawMessageIdHeader?.match(/<(.+)>/)?.[1] || messageId || fallback`. -/
def actualMessageId (p : InboundPayload) (now : Nat) : String :=
  match p.messageIdHeader.bind extractAngle with
  | some v => v
  | none => if p.messageId ≠ "" then p.messageId else "missing-message-id-" ++ toString now

/-- JS `postmarkPayload.Subject || '(no subject)'`. -/
def effectiveSubject (p : InboundPayload) : String :=
  if p.subject ≠ "" then p.subject else "(no subject)"

/-- Update every session row with the given id (the Supabase
`update(...).eq('session_id', sid)`). -/
def updateSession (w : WorldState) (sid : String) (f : Session → Session) : WorldState :=
  { w with sessions := w.sessions.map (fun s => if s.session_id == sid then f s else s) }

/-- The session id of a freshly inserted session row (the Supabase
generated UUID, modelled deterministically). -/
def freshSessionId (w : WorldState) : String :=
  "session-" ++ toString w.sessions.length

/-- The quarantine row written by the loop-prevention check. -/
def quarantineOf (p : InboundPayload) : QuarantineRecord :=
  ⟨p.messageId, p.fromEmail, effectiveSubject p, p.textBody⟩

/-- The `session_messages` row written for the inbound email. -/
def incomingMessageOf (p : InboundPayload) (now : Nat) (sid : String) (s : Session) :
    StoredMessage :=
  let mtype :=
    if s.organizer_email ≠ "" ∧ p.fromEmail = s.organizer_email
    then "human_organizer" else "human_participant"
  ⟨sid, actualMessageId p now, p.fromEmail, mtype, p.textBody⟩

/-- The participant-reply status update: every tracked entry whose email
matches the sender (case-insensitively) is set to `received`. -/
def gateUpdate (details : List ParticipantStatusDetail) (sender : String) :
    List ParticipantStatusDetail :=
  details.map (fun q =>
    if lowerS q.email == lowerS sender then { q with status := "received" } else q)

/-- The recipient list chosen from the decision and the session *before*
the agent-address safeguard filter. -/
def preRecipients (organizer : String) (details : List ParticipantStatusDetail)
    (d : AiDecision) : List String :=
  match d.next_step with
  | .ask_participant_availability | .propose_time_to_participant =>
      if organizer ≠ ""
      then d.recipients.filter (fun r => !(lowerS r == lowerS organizer))
      else d.recipients
  | .propose_time_to_organizer | .request_clarification =>
      if organizer ≠ "" then [organizer] else []
  | .send_final_confirmation =>
      dedupKeepFirst ((if organizer ≠ "" then [organizer] else []) ++ details.map (·.email))
  | .no_action_needed | .error_cannot_schedule => []

/-- The safety-net filter removing the agent's bare and routing-token
addresses from the final recipient list. -/
def agentFilter (agentEmail : String) (rs : List String) : List String :=
  rs.filter (fun e => !(lowerS e == agentEmail) && !(isAgentHashed agentEmail e))

/-- The final recipient list of a run: decision-and-session recipients
with the agent-address safeguard applied. -/
def finalRecipientsFor (agentEmail organizer : String)
    (details : List ParticipantStatusDetail) (d : AiDecision) : List String :=
  agentFilter agentEmail (preRecipients organizer details d)

/-- The `nextSessionStatus` switch of the handler, applied to the session
status fetched at the start of the run. -/
def nextSessionStatus (step : NextStep) (current : String) : String :=
  match step with
  | .ask_participant_availability | .propose_time_to_participant =>
      "pending_participant_response"
  | .propose_time_to_organizer | .request_clarification =>
      "pending_organizer_confirmation"
  | .send_final_confirmation => "confirmed"
  | .error_cannot_schedule => "error"
  | .no_action_needed => current

/-- The `last_request_sent_at` update for the participants about to be
contacted (participant-directed steps only; matching is by exact email
string, and the list used is the one *before* the agent-address
safeguard, as in the source). -/
def requestTimestampStage (ai : AiDecision) (now : Nat) (w : WorldState) (sid : String)
    (gateDetails : List ParticipantStatusDetail) (pre : List String) : WorldState :=
  let isParticipantStep :=
    ai.next_step = .ask_participant_availability ∨ ai.next_step = .propose_time_to_participant
  let details2 :=
    gateDetails.map (fun q =>
      if pre.contains q.email then { q with last_request_sent_at := some now } else q)
  let anyMatch := gateDetails.any (fun q => pre.contains q.email)
  if isParticipantStep ∧ anyMatch then
    updateSession w sid (fun t => { t with participant_status_details := details2 })
  else w

/-- The send-and-conditionally-save block: send when there are recipients
and a non-blank body; persist the assistant message only when the send
returned a provider message id. -/
def sendStage (agentEmail : String) (send : String → Option String) (ai : AiDecision)
    (now : Nat) (p : InboundPayload) (w : WorldState) (sid : String)
    (finalRecipients : List String) : WorldState :=
  if finalRecipients ≠ [] ∧ trimS ai.email_body ≠ "" then
    let subj := effectiveSubject p
    let outSubject := if startsWithS subj "Re:" then subj else "Re: " ++ subj
    let res := sendSchedulingEmail agentEmail send finalRecipients outSubject
      ai.email_body sid (actualMessageId p now) p.referencesHeader
      (ai.next_step == NextStep.send_final_confirmation)
    let wSent := { w with outbox := w.outbox ++ res.2 }
    match res.1 with
    | some oid =>
        { wSent with messages :=
            wSent.messages ++ [⟨sid, oid, agentEmail, "ai_agent", ai.email_body⟩] }
    | none => wSent
  else w

/-- Decision execution (the part of the handler after the participant
response gate has opened): update `last_request_sent_at` for contacted
participants, apply the agent-address safeguard, send, persist the
assistant message only on a send that returned a provider id, and write
the final session status from the `nextSessionStatus` switch (applied to
the status fetched at the start of the run, `s.status`).  `w` is the
world after the incoming message insert and the gate updates. -/
def executeDecision (agentEmail : String) (send : String → Option String) (ai : AiDecision)
    (now : Nat) (p : InboundPayload) (w : WorldState) (sid : String) (s : Session)
    (gateDetails : List ParticipantStatusDetail) : WorldState :=
  let pre := preRecipients s.organizer_email gateDetails ai
  let w5 := requestTimestampStage ai now w sid gateDetails pre
  let w6 := sendStage agentEmail send ai now p w5 sid (agentFilter agentEmail pre)
  updateSession w6 sid (fun t => { t with status := nextSessionStatus ai.next_step s.status })

/-- Everything the handler does once a session row `s` with id `sid` is in
hand (either looked up or freshly created): save the incoming message,
run the participant response gate, and — when the gate is open or the
sender is the organizer — execute the decision. -/
def handleResolved (agentEmail : String) (send : String → Option String) (ai : AiDecision)
    (now : Nat) (p : InboundPayload) (w : WorldState) (sid : String) (s : Session) :
    WorldState × HandlerResult :=
  let inMsg := incomingMessageOf p now sid s
  let w2 := { w with messages := w.messages ++ [inMsg] }
  let isParticipant := inMsg.message_type = "human_participant"
  let gateDetails :=
    if isParticipant then gateUpdate s.participant_status_details p.fromEmail
    else s.participant_status_details
  let allReplied := gateDetails.all (fun q => q.status == "received")
  let w3 :=
    if isParticipant then
      updateSession w2 sid (fun t => { t with participant_status_details := gateDetails })
    else w2
  if isParticipant ∧ ¬allReplied then (w3, .waitingForOthers)
  else
    let w4 :=
      if isParticipant then
        updateSession w3 sid (fun t => { t with status := "pending_organizer_confirmation" })
      else w3
    (executeDecision agentEmail send ai now p w4 sid s gateDetails, .success ai)

/-- The session row inserted when no existing session was resolved. -/
def newSessionFor (agentEmail : String) (w : WorldState) (p : InboundPayload) : Session :=
  let parts := newSessionParticipants agentEmail p
  { session_id := freshSessionId w
    organizer_email := p.fromEmail
    organizer_name := if p.fromName ≠ "" then p.fromName else p.fromEmail
    meeting_topic := effectiveSubject p
    status := "pending_participant_response"
    participants := parts
    participant_status_details := parts.map (fun e => ⟨e, "pending", none⟩) }

/-- The POST handler of the webhook (`part_001`): missing-sender
pre-check, loop-prevention check, session resolution or creation, then
`handleResolved`. -/
def processInbound (agentEmail : String) (send : String → Option String) (ai : AiDecision)
    (now : Nat) (w : WorldState) (p : InboundPayload) : WorldState × HandlerResult :=
  if p.fromEmail = "" then (w, .ignoredMissingSender)
  else if lowerS p.fromEmail = agentEmail ∧ p.mailboxHash.length < 10 then
    ({ w with quarantine := w.quarantine ++ [quarantineOf p] }, .discardedAgentLoop)
  else
    match resolveSessionId w p.mailboxHash p.inReplyToHeader with
    | some sid =>
        match findSession w sid with
        | none => (w, .failedFetchState)
        | some s => handleResolved agentEmail send ai now p w sid s
    | none =>
        let newS := newSessionFor agentEmail w p
        let w1 := { w with sessions := w.sessions ++ [newS] }
        handleResolved agentEmail send ai now p w1 newS.session_id newS

/-! ## The nudge cron handler (`app/api/cron/nudge/route.ts`) -/

def NUDGE1_THRESHOLD_MINUTES : Nat := 1
def NUDGE2_THRESHOLD_MINUTES : Nat := 2
def ESCALATION_THRESHOLD_MINUTES : Nat := 3

/-- The outcome of the per-participant body of the nudge sweep: the
(possibly updated) participant entry, the send calls attempted, and
whether the escalation branch was taken (the `sessionEscalated` flag,
which the source sets before knowing whether the send succeeded). -/
structure NudgeOutcome where
  participant : ParticipantStatusDetail
  calls : List SendCall
  escalatedFlag : Bool
deriving Repr, DecidableEq

/-- One iteration of the per-participant loop of the nudge sweep.  Email
prose is embedded with apostrophes elided; it carries no logic.  Elapsed
minutes use natural division, which agrees with the JS float comparison
against the integer thresholds. -/
def nudgeParticipant (agentEmail : String) (send : String → Option String)
    (organizerEmail meetingTopic sessionId : String) (now : Nat)
    (p : ParticipantStatusDetail) : NudgeOutcome :=
  if p.status = "received" ∨ p.last_request_sent_at = none then ⟨p, [], false⟩
  else
    let last := p.last_request_sent_at.getD 0
    let minutesSince := (now - last) / 60000
    let topicOr := if meetingTopic ≠ "" then meetingTopic else "meeting"
    let needsNudge1 := p.status = "pending" ∧ NUDGE1_THRESHOLD_MINUTES ≤ minutesSince
    let needsNudge2 := p.status = "nudged_1" ∧ NUDGE2_THRESHOLD_MINUTES ≤ minutesSince
    let needsEscalation := p.status = "nudged_2" ∧ ESCALATION_THRESHOLD_MINUTES ≤ minutesSince
    let nextStatus :=
      if needsNudge1 then "nudged_1"
      else if needsNudge2 then "nudged_2"
      else if needsEscalation then "escalated"
      else p.status
    let recipient := if needsEscalation then organizerEmail else p.email
    let emailSubject :=
      if needsNudge1 then "Reminder: Availability for " ++ topicOr
      else if needsNudge2 then "Second Reminder: Availability for " ++ topicOr
      else if needsEscalation then "Action Required: Issue scheduling " ++ topicOr
      else ""
    let emailBody :=
      if needsNudge1 then
        "Hi " ++ localPart p.email ++ ",\n\nJust a friendly reminder to share your availability for the meeting \"" ++ topicOr ++ "\" requested by " ++ organizerEmail ++ ".\n\nPlease reply to this email with times you are available.\n\nThanks,\nAmy (Scheduling Assistant)"
      else if needsNudge2 then
        "Hi " ++ localPart p.email ++ ",\n\nFollowing up again on the request for your availability for the meeting \"" ++ topicOr ++ "\" requested by " ++ organizerEmail ++ ".\n\nPlease let me know your availability as soon as possible.\n\nThanks,\nAmy (Scheduling Assistant)"
      else if needsEscalation then
        "Hi " ++ localPart organizerEmail ++ ",\n\nI have not received an availability response from " ++ p.email ++ " for the meeting \"" ++ topicOr ++ "\", even after sending two reminders.\n\nHow would you like to proceed?\n- Try scheduling with the participants who have responded?\n- Ask me to send another reminder?\n- Contact " ++ p.email ++ " directly?\n\nPlease let me know.\n\nThanks,\nAmy (Scheduling Assistant)"
      else ""
    if nextStatus = p.status then ⟨p, [], false⟩
    else
      let res := sendSchedulingEmail agentEmail send [recipient] emailSubject emailBody
        sessionId ("cron-nudge-" ++ sessionId ++ "-" ++ p.email) none false
      match res.1 with
      | some _ =>
          ⟨{ p with status := nextStatus, last_request_sent_at := some now }, res.2,
            decide needsEscalation⟩
      | none => ⟨p, res.2, decide needsEscalation⟩

/-! ## The superseded prototype handler (`src/app/api/schedule/route.ts`) -/

/-- The prototype route file has its own `sendSchedulingEmail`: a single
Postmark call to the comma-joined recipient list (headers projected
away); `null` on a caught send error. -/
def protoSendEmail (send : String → Option String) (toRecipients : List String) :
    Option String :=
  send (String.intercalate ", " toRecipients)

/-- Steps 6-7 of the prototype POST handler: send when the decision is
actionable, then save the AI response row *unconditionally* with
`postmark_message_id: outgoingMessageId || null` (the stored `null` is
modelled as `""`).  Returns the message table and the send result. -/
def protoSendAndSave (agentEmail : String) (send : String → Option String)
    (d : AiDecision) (sessionId : String) (msgs : List StoredMessage) :
    List StoredMessage × Option String :=
  if d.next_step ≠ NextStep.no_action_needed ∧ d.next_step ≠ NextStep.error_cannot_schedule ∧
      d.recipients ≠ [] ∧ trimS d.email_body ≠ "" then
    let outgoingMessageId := protoSendEmail send d.recipients
    (msgs ++ [⟨sessionId, outgoingMessageId.getD "", agentEmail, "ai_agent", d.email_body⟩],
      outgoingMessageId)
  else (msgs, none)

/-! ## Shared helper lemmas -/

@[simp] lemma updateSession_messages (w : WorldState) (sid : String) (f : Session → Session) :
    (updateSession w sid f).messages = w.messages := rfl

@[simp] lemma updateSession_outbox (w : WorldState) (sid : String) (f : Session → Session) :
    (updateSession w sid f).outbox = w.outbox := rfl

@[simp] lemma updateSession_quarantine (w : WorldState) (sid : String) (f : Session → Session) :
    (updateSession w sid f).quarantine = w.quarantine := rfl

@[simp] lemma updateSession_sessions_length (w : WorldState) (sid : String)
    (f : Session → Session) :
    (updateSession w sid f).sessions.length = w.sessions.length := by
  simp [updateSession]

lemma find?_map_update (l : List Session) (sid : String) (f : Session → Session)
    (hf : ∀ t, (f t).session_id = t.session_id) :
    (l.map (fun t => if t.session_id == sid then f t else t)).find?
        (fun t => t.session_id == sid) =
      (l.find? (fun t => t.session_id == sid)).map f := by
  induction l with
  | nil => rfl
  | cons h t ih =>
      by_cases hh : (h.session_id == sid) = true
      · simp only [List.map_cons, if_pos hh]
        have h1 : ((f h).session_id == sid) = true := by rw [hf h]; exact hh
        have e1 : List.find? (fun t => t.session_id == sid)
            (f h :: (t.map (fun u => if (u.session_id == sid) = true then f u else u)))
            = some (f h) := List.find?_cons_of_pos _ h1
        have e2 : List.find? (fun t => t.session_id == sid) (h :: t) = some h :=
          List.find?_cons_of_pos _ hh
        rw [e1, e2]
        rfl
      · simp only [List.map_cons, if_neg hh]
        have hh' : ¬ ((fun t => t.session_id == sid) h = true) := hh
        have e1 : List.find? (fun t => t.session_id == sid)
            (h :: (t.map (fun u => if (u.session_id == sid) = true then f u else u)))
            = List.find? (fun t => t.session_id == sid)
                (t.map (fun u => if (u.session_id == sid) = true then f u else u)) :=
          List.find?_cons_of_neg _ hh'
        have e2 : List.find? (fun t => t.session_id == sid) (h :: t)
            = List.find? (fun t => t.session_id == sid) t :=
          List.find?_cons_of_neg _ hh'
        rw [e1, e2]
        exact ih

lemma findSession_updateSession (w : WorldState) (sid : String) (f : Session → Session)
    (hf : ∀ t, (f t).session_id = t.session_id) :
    findSession (updateSession w sid f) sid = (findSession w sid).map f := by
  unfold findSession updateSession
  exact find?_map_update w.sessions sid f hf

lemma mem_dedupKeepFirst_aux (l : List String) (x : String) :
    ∀ acc, (x ∈ l.foldl (fun acc y => if acc.contains y then acc else acc ++ [y]) acc) ↔
      (x ∈ acc ∨ x ∈ l) := by
  induction l with
  | nil => intro acc; simp
  | cons h t ih =>
      intro acc
      simp only [List.foldl_cons]
      by_cases hc : acc.contains h
      · rw [if_pos hc, ih]
        constructor
        · rintro (hx | hx)
          · exact Or.inl hx
          · exact Or.inr (List.mem_cons_of_mem _ hx)
        · rintro (hx | hx)
          · exact Or.inl hx
          · rcases List.mem_cons.mp hx with rfl | hx
            · exact Or.inl (List.mem_of_elem_eq_true hc)
            · exact Or.inr hx
      · rw [if_neg hc, ih]
        constructor
        · rintro (hx | hx)
          · rcases List.mem_append.mp hx with hx | hx
            · exact Or.inl hx
            · simp at hx
              exact Or.inr (hx ▸ List.mem_cons_self _ _)
          · exact Or.inr (List.mem_cons_of_mem _ hx)
        · rintro (hx | hx)
          · exact Or.inl (List.mem_append.mpr (Or.inl hx))
          · rcases List.mem_cons.mp hx with rfl | hx
            · exact Or.inl (List.mem_append.mpr (Or.inr (List.mem_singleton_self _)))
            · exact Or.inr hx

lemma mem_dedupKeepFirst (l : List String) (x : String) :
    x ∈ dedupKeepFirst l ↔ x ∈ l := by
  unfold dedupKeepFirst
  rw [mem_dedupKeepFirst_aux]
  simp

lemma sendSchedulingEmail_failSend (agentEmail : String) (toRecipients : List String)
    (subject textBody sessionId trig : String) (refs : Option String) (grp : Bool) :
    (sendSchedulingEmail agentEmail failSend toRecipients subject textBody sessionId trig
        refs grp).1 = none := by
  cases toRecipients with
  | nil => rfl
  | cons a rest => rfl



@[simp] lemma requestTimestampStage_messages (ai : AiDecision) (now : Nat) (w : WorldState)
    (sid : String) (gd : List ParticipantStatusDetail) (pre : List String) :
    (requestTimestampStage ai now w sid gd pre).messages = w.messages := by
  unfold requestTimestampStage
  dsimp only
  split <;> rfl

@[simp] lemma requestTimestampStage_outbox (ai : AiDecision) (now : Nat) (w : WorldState)
    (sid : String) (gd : List ParticipantStatusDetail) (pre : List String) :
    (requestTimestampStage ai now w sid gd pre).outbox = w.outbox := by
  unfold requestTimestampStage
  dsimp only
  split <;> rfl

@[simp] lemma requestTimestampStage_quarantine (ai : AiDecision) (now : Nat) (w : WorldState)
    (sid : String) (gd : List ParticipantStatusDetail) (pre : List String) :
    (requestTimestampStage ai now w sid gd pre).quarantine = w.quarantine := by
  unfold requestTimestampStage
  dsimp only
  split <;> rfl

@[simp] lemma requestTimestampStage_sessions_length (ai : AiDecision) (now : Nat)
    (w : WorldState) (sid : String) (gd : List ParticipantStatusDetail) (pre : List String) :
    (requestTimestampStage ai now w sid gd pre).sessions.length = w.sessions.length := by
  unfold requestTimestampStage
  dsimp only
  split <;> simp

lemma requestTimestampStage_findSession_isSome (ai : AiDecision) (now : Nat) (w : WorldState)
    (sid : String) (gd : List ParticipantStatusDetail) (pre : List String) :
    (findSession (requestTimestampStage ai now w sid gd pre) sid).isSome
      = (findSession w sid).isSome := by
  unfold requestTimestampStage
  dsimp only
  split
  · rw [findSession_updateSession]
    · cases findSession w sid <;> rfl
    · intro t; rfl
  · rfl

@[simp] lemma sendStage_sessions (agentEmail : String) (send : String → Option String)
    (ai : AiDecision) (now : Nat) (p : InboundPayload) (w : WorldState) (sid : String)
    (fr : List String) :
    (sendStage agentEmail send ai now p w sid fr).sessions = w.sessions := by
  unfold sendStage
  dsimp only
  split
  · split <;> rfl
  · rfl

@[simp] lemma sendStage_quarantine (agentEmail : String) (send : String → Option String)
    (ai : AiDecision) (now : Nat) (p : InboundPayload) (w : WorldState) (sid : String)
    (fr : List String) :
    (sendStage agentEmail send ai now p w sid fr).quarantine = w.quarantine := by
  unfold sendStage
  dsimp only
  split
  · split <;> rfl
  · rfl


lemma sendStage_messages (agentEmail : String) (send : String → Option String)
    (ai : AiDecision) (now : Nat) (p : InboundPayload) (w : WorldState) (sid : String)
    (fr : List String) :
    (sendStage agentEmail send ai now p w sid fr).messages = w.messages ∨
      ∃ oid : String,
        (sendStage agentEmail send ai now p w sid fr).messages
          = w.messages ++ [⟨sid, oid, agentEmail, "ai_agent", ai.email_body⟩] := by
  unfold sendStage
  dsimp only
  split
  · split
    · rename_i oid heq
      right
      exact ⟨oid, rfl⟩
    · left; rfl
  · left; rfl

lemma sendStage_messages_failSend (agentEmail : String) (ai : AiDecision) (now : Nat)
    (p : InboundPayload) (w : WorldState) (sid : String) (fr : List String) :
    (sendStage agentEmail failSend ai now p w sid fr).messages = w.messages := by
  unfold sendStage
  dsimp only
  split
  · rw [sendSchedulingEmail_failSend]
  · rfl

lemma sendStage_skip (agentEmail : String) (send : String → Option String)
    (ai : AiDecision) (now : Nat) (p : InboundPayload) (w : WorldState) (sid : String) :
    sendStage agentEmail send ai now p w sid [] = w := by
  unfold sendStage
  rw [if_neg]
  intro h
  exact h.1 rfl

lemma intercalate_singleton (a : String) : String.intercalate ", " [a] = a := by
  rfl

lemma sendSchedulingEmail_calls_single (agentEmail : String) (send : String → Option String)
    (a : String) (rest : List String) (subject textBody sessionId trig : String)
    (refs : Option String) (grp : Bool) (h : rest = [] ∨ grp = true) :
    ∃ c : SendCall,
      (sendSchedulingEmail agentEmail send (a :: rest) subject textBody sessionId trig
          refs grp).2 = [c] ∧
        c.toField = String.intercalate ", " (a :: rest) := by
  unfold sendSchedulingEmail
  dsimp only
  by_cases hr : rest = []
  · subst hr
    simp only [ne_eq, not_true_eq_false, decide_False, Bool.false_and, Bool.false_eq_true,
      if_false, intercalate_singleton]
    cases send a <;> exact ⟨_, rfl, rfl⟩
  · have hgrp : grp = true := h.resolve_left hr
    subst hgrp
    simp only [ne_eq, hr, not_false_eq_true, decide_True, Bool.true_and, Bool.and_true,
      if_true]
    cases send (String.intercalate ", " (a :: rest)) <;> exact ⟨_, rfl, rfl⟩

lemma findSession_congr (w1 w2 : WorldState) (sid : String) (h : w1.sessions = w2.sessions) :
    findSession w1 sid = findSession w2 sid := by
  unfold findSession
  rw [h]

lemma sendStage_outbox_eq (agentEmail : String) (send : String → Option String)
    (ai : AiDecision) (now : Nat) (p : InboundPayload) (w : WorldState) (sid : String)
    (fr : List String) (h : fr ≠ [] ∧ trimS ai.email_body ≠ "") :
    (sendStage agentEmail send ai now p w sid fr).outbox
      = w.outbox ++ (sendSchedulingEmail agentEmail send fr
          (if startsWithS (effectiveSubject p) "Re:" then effectiveSubject p
            else "Re: " ++ effectiveSubject p)
          ai.email_body sid (actualMessageId p now) p.referencesHeader
          (ai.next_step == NextStep.send_final_confirmation)).2 := by
  unfold sendStage
  rw [if_pos h]
  dsimp only
  split <;> rfl

lemma executeDecision_messages (agentEmail : String) (send : String → Option String)
    (ai : AiDecision) (now : Nat) (p : InboundPayload) (w : WorldState) (sid : String)
    (s : Session) (gd : List ParticipantStatusDetail) :
    (executeDecision agentEmail send ai now p w sid s gd).messages = w.messages ∨
      ∃ oid : String,
        (executeDecision agentEmail send ai now p w sid s gd).messages
          = w.messages ++ [⟨sid, oid, agentEmail, "ai_agent", ai.email_body⟩] := by
  unfold executeDecision
  dsimp only
  rcases sendStage_messages agentEmail send ai now p
      (requestTimestampStage ai now w sid gd (preRecipients s.organizer_email gd ai)) sid
      (agentFilter agentEmail (preRecipients s.organizer_email gd ai)) with h | ⟨oid, h⟩
  · left
    rw [updateSession_messages, h, requestTimestampStage_messages]
  · right
    exact ⟨oid, by rw [updateSession_messages, h, requestTimestampStage_messages]⟩

lemma executeDecision_messages_failSend (agentEmail : String) (ai : AiDecision) (now : Nat)
    (p : InboundPayload) (w : WorldState) (sid : String) (s : Session)
    (gd : List ParticipantStatusDetail) :
    (executeDecision agentEmail failSend ai now p w sid s gd).messages = w.messages := by
  unfold executeDecision
  dsimp only
  rw [updateSession_messages, sendStage_messages_failSend, requestTimestampStage_messages]

lemma executeDecision_outbox_skip (agentEmail : String) (send : String → Option String)
    (ai : AiDecision) (now : Nat) (p : InboundPayload) (w : WorldState) (sid : String)
    (s : Session) (gd : List ParticipantStatusDetail)
    (h : agentFilter agentEmail (preRecipients s.organizer_email gd ai) = []) :
    (executeDecision agentEmail send ai now p w sid s gd).outbox = w.outbox := by
  unfold executeDecision
  dsimp only
  rw [updateSession_outbox, h, sendStage_skip, requestTimestampStage_outbox]

lemma executeDecision_sessions_length (agentEmail : String) (send : String → Option String)
    (ai : AiDecision) (now : Nat) (p : InboundPayload) (w : WorldState) (sid : String)
    (s : Session) (gd : List ParticipantStatusDetail) :
    (executeDecision agentEmail send ai now p w sid s gd).sessions.length
      = w.sessions.length := by
  unfold executeDecision
  dsimp only
  rw [updateSession_sessions_length]
  have h6 := sendStage_sessions agentEmail send ai now p
    (requestTimestampStage ai now w sid gd (preRecipients s.organizer_email gd ai)) sid
    (agentFilter agentEmail (preRecipients s.organizer_email gd ai))
  rw [h6, requestTimestampStage_sessions_length]

lemma executeDecision_status (agentEmail : String) (send : String → Option String)
    (ai : AiDecision) (now : Nat) (p : InboundPayload) (w : WorldState) (sid : String)
    (s u : Session) (gd : List ParticipantStatusDetail)
    (hf : findSession w sid = some u) :
    (findSession (executeDecision agentEmail send ai now p w sid s gd) sid).map
        (fun t => t.status)
      = some (nextSessionStatus ai.next_step s.status) := by
  unfold executeDecision
  dsimp only
  rw [findSession_updateSession]
  · rw [findSession_congr _
      (requestTimestampStage ai now w sid gd (preRecipients s.organizer_email gd ai)) sid
      (sendStage_sessions agentEmail send ai now p _ sid _)]
    have h5 := requestTimestampStage_findSession_isSome ai now w sid gd
      (preRecipients s.organizer_email gd ai)
    rw [hf] at h5
    cases hfd : findSession
        (requestTimestampStage ai now w sid gd (preRecipients s.organizer_email gd ai)) sid with
    | none => rw [hfd] at h5; simp at h5
    | some v => rfl
  · intro t; rfl


lemma handleResolved_wait (agentEmail : String) (send : String → Option String)
    (ai : AiDecision) (now : Nat) (p : InboundPayload) (w : WorldState) (sid : String)
    (s : Session)
    (hpart : (incomingMessageOf p now sid s).message_type = "human_participant")
    (hall : ((gateUpdate s.participant_status_details p.fromEmail).all
        (fun q => q.status == "received")) = false) :
    handleResolved agentEmail send ai now p w sid s =
      (updateSession { w with messages := w.messages ++ [incomingMessageOf p now sid s] } sid
          (fun t => { t with participant_status_details := gateUpdate s.participant_status_details p.fromEmail }),
        .waitingForOthers) := by
  unfold handleResolved
  simp only [hpart, hall]
  simp
  simpa using hall

lemma handleResolved_organizer (agentEmail : String) (send : String → Option String)
    (ai : AiDecision) (now : Nat) (p : InboundPayload) (w : WorldState) (sid : String)
    (s : Session)
    (hpart : (incomingMessageOf p now sid s).message_type = "human_organizer") :
    handleResolved agentEmail send ai now p w sid s =
      (executeDecision agentEmail send ai now p
          { w with messages := w.messages ++ [incomingMessageOf p now sid s] } sid s
          s.participant_status_details,
        .success ai) := by
  unfold handleResolved
  simp only [hpart]
  simp

lemma handleResolved_participant_all (agentEmail : String) (send : String → Option String)
    (ai : AiDecision) (now : Nat) (p : InboundPayload) (w : WorldState) (sid : String)
    (s : Session)
    (hpart : (incomingMessageOf p now sid s).message_type = "human_participant")
    (hall : ((gateUpdate s.participant_status_details p.fromEmail).all
        (fun q => q.status == "received")) = true) :
    handleResolved agentEmail send ai now p w sid s =
      (executeDecision agentEmail send ai now p
          (updateSession
            (updateSession { w with messages := w.messages ++ [incomingMessageOf p now sid s] }
              sid
              (fun t => { t with participant_status_details := gateUpdate s.participant_status_details p.fromEmail }))
            sid (fun t => { t with status := "pending_organizer_confirmation" }))
          sid s (gateUpdate s.participant_status_details p.fromEmail),
        .success ai) := by
  unfold handleResolved
  simp only [hpart, hall]
  simp
  simpa using hall


lemma processInbound_resolved (agentEmail : String) (send : String → Option String)
    (ai : AiDecision) (now : Nat) (w : WorldState) (p : InboundPayload) (sid : String)
    (s : Session)
    (hne : p.fromEmail ≠ "")
    (hguard : ¬(lowerS p.fromEmail = agentEmail ∧ p.mailboxHash.length < 10))
    (hres : resolveSessionId w p.mailboxHash p.inReplyToHeader = some sid)
    (hfind : findSession w sid = some s) :
    processInbound agentEmail send ai now w p
      = handleResolved agentEmail send ai now p w sid s := by
  unfold processInbound
  rw [if_neg hne, if_neg hguard, hres]
  dsimp only
  rw [hfind]

lemma processInbound_new (agentEmail : String) (send : String → Option String)
    (ai : AiDecision) (now : Nat) (w : WorldState) (p : InboundPayload)
    (hne : p.fromEmail ≠ "")
    (hguard : ¬(lowerS p.fromEmail = agentEmail ∧ p.mailboxHash.length < 10))
    (hres : resolveSessionId w p.mailboxHash p.inReplyToHeader = none) :
    processInbound agentEmail send ai now w p
      = handleResolved agentEmail send ai now p
          { w with sessions := w.sessions ++ [newSessionFor agentEmail w p] }
          (newSessionFor agentEmail w p).session_id (newSessionFor agentEmail w p) := by
  unfold processInbound
  rw [if_neg hne, if_neg hguard, hres]


lemma incomingMessageOf_message_type (p : InboundPayload) (now : Nat) (sid : String)
    (s : Session) :
    (incomingMessageOf p now sid s).message_type = "human_organizer" ∨
      (incomingMessageOf p now sid s).message_type = "human_participant" := by
  unfold incomingMessageOf
  dsimp only
  split
  · left; rfl
  · right; rfl

lemma sendSchedulingEmail_single_result (agentEmail : String)
    (send : String → Option String) (a subject textBody sessionId trig : String)
    (refs : Option String) (grp : Bool) :
    (sendSchedulingEmail agentEmail send [a] subject textBody sessionId trig refs grp).1
      = send a := by
  unfold sendSchedulingEmail
  dsimp only
  simp only [ne_eq, not_true_eq_false, decide_False, Bool.false_and, Bool.false_eq_true,
    if_false]
  cases send a <;> rfl

lemma executeDecision_outbox (agentEmail : String) (send : String → Option String)
    (ai : AiDecision) (now : Nat) (p : InboundPayload) (w : WorldState) (sid : String)
    (s : Session) (gd : List ParticipantStatusDetail) :
    (executeDecision agentEmail send ai now p w sid s gd).outbox
      = (sendStage agentEmail send ai now p
          (requestTimestampStage ai now w sid gd (preRecipients s.organizer_email gd ai)) sid
          (agentFilter agentEmail (preRecipients s.organizer_email gd ai))).outbox := by
  unfold executeDecision
  dsimp only
  rw [updateSession_outbox]

lemma handleResolved_messages (agentEmail : String) (send : String → Option String)
    (ai : AiDecision) (now : Nat) (p : InboundPayload) (w : WorldState) (sid : String)
    (s : Session) :
    ((handleResolved agentEmail send ai now p w sid s).1).messages
        = w.messages ++ [incomingMessageOf p now sid s] ∨
      ∃ oid : String,
        ((handleResolved agentEmail send ai now p w sid s).1).messages
          = w.messages ++ [incomingMessageOf p now sid s]
            ++ [⟨sid, oid, agentEmail, "ai_agent", ai.email_body⟩] := by
  rcases incomingMessageOf_message_type p now sid s with hmt | hmt
  · rw [handleResolved_organizer agentEmail send ai now p w sid s hmt]
    rcases executeDecision_messages agentEmail send ai now p
        { w with messages := w.messages ++ [incomingMessageOf p now sid s] } sid s
        s.participant_status_details with h | ⟨oid, h⟩
    · left; exact h
    · right; exact ⟨oid, h⟩
  · by_cases hall : ((gateUpdate s.participant_status_details p.fromEmail).all
        (fun q => q.status == "received")) = true
    · rw [handleResolved_participant_all agentEmail send ai now p w sid s hmt hall]
      rcases executeDecision_messages agentEmail send ai now p
          (updateSession
            (updateSession { w with messages := w.messages ++ [incomingMessageOf p now sid s] }
              sid
              (fun t => { t with participant_status_details := gateUpdate s.participant_status_details p.fromEmail }))
            sid (fun t => { t with status := "pending_organizer_confirmation" }))
          sid s (gateUpdate s.participant_status_details p.fromEmail) with h | ⟨oid, h⟩
      · left
        rw [h]
        simp
      · right
        refine ⟨oid, ?_⟩
        rw [h]
        simp
    · rw [handleResolved_wait agentEmail send ai now p w sid s hmt
        (Bool.eq_false_iff.mpr hall)]
      left
      simp

lemma handleResolved_messages_failSend (agentEmail : String) (ai : AiDecision) (now : Nat)
    (p : InboundPayload) (w : WorldState) (sid : String) (s : Session) :
    ((handleResolved agentEmail failSend ai now p w sid s).1).messages
      = w.messages ++ [incomingMessageOf p now sid s] := by
  rcases incomingMessageOf_message_type p now sid s with hmt | hmt
  · rw [handleResolved_organizer agentEmail failSend ai now p w sid s hmt]
    exact executeDecision_messages_failSend agentEmail ai now p _ sid s _
  · by_cases hall : ((gateUpdate s.participant_status_details p.fromEmail).all
        (fun q => q.status == "received")) = true
    · rw [handleResolved_participant_all agentEmail failSend ai now p w sid s hmt hall]
      rw [executeDecision_messages_failSend]
      simp
    · rw [handleResolved_wait agentEmail failSend ai now p w sid s hmt
        (Bool.eq_false_iff.mpr hall)]
      simp

lemma handleResolved_sessions_length (agentEmail : String) (send : String → Option String)
    (ai : AiDecision) (now : Nat) (p : InboundPayload) (w : WorldState) (sid : String)
    (s : Session) :
    ((handleResolved agentEmail send ai now p w sid s).1).sessions.length
      = w.sessions.length := by
  rcases incomingMessageOf_message_type p now sid s with hmt | hmt
  · rw [handleResolved_organizer agentEmail send ai now p w sid s hmt]
    rw [executeDecision_sessions_length]
  · by_cases hall : ((gateUpdate s.participant_status_details p.fromEmail).all
        (fun q => q.status == "received")) = true
    · rw [handleResolved_participant_all agentEmail send ai now p w sid s hmt hall]
      rw [executeDecision_sessions_length]
      simp [updateSession]
    · rw [handleResolved_wait agentEmail send ai now p w sid s hmt
        (Bool.eq_false_iff.mpr hall)]
      simp [updateSession]


/-! ## Concrete fixtures used by witnesses and counterexamples -/

/-- The configured (already lowercased) assistant address of the examples. -/
def exAgent : String := "amy@dom.com"

/-- A send oracle on which every Postmark call succeeds. -/
def exOkSend : String → Option String := fun _ => some "pm-new"

def exSession : Session :=
  { session_id := "sess-0123456789"
    organizer_email := "org@x.com"
    organizer_name := "Org"
    meeting_topic := "Sync"
    status := "pending_participant_response"
    participants := ["p1@x.com", "p2@x.com"]
    participant_status_details :=
      [⟨"p1@x.com", "pending", some 0⟩, ⟨"p2@x.com", "pending", some 0⟩] }

def exWorld : WorldState :=
  { sessions := [exSession]
    messages := [⟨"sess-0123456789", "mid-1", "org@x.com", "human_organizer", "hello"⟩]
    quarantine := []
    outbox := [] }

def exPayload : InboundPayload :=
  { mailboxHash := ""
    fromEmail := "org@x.com"
    fromName := "Org"
    subject := "Sync"
    textBody := "hello"
    messageId := "pmid-1"
    messageIdHeader := some "<hdr-1@client>"
    inReplyToHeader := none
    referencesHeader := none
    toFull := []
    ccFull := []
    originalRecipient := "amy@dom.com" }

/-- Participant p1 replying into the existing session via the routing token. -/
def exReplyP1 : InboundPayload :=
  { exPayload with
      fromEmail := "p1@x.com"
      fromName := "P1"
      mailboxHash := "sess-0123456789"
      messageIdHeader := some "<hdr-2@client>" }

/-- The organizer replying into the existing session via the routing token. -/
def exOrganizerReply : InboundPayload :=
  { exPayload with mailboxHash := "sess-0123456789" }

/-- An email from the assistant's own address without a routing token. -/
def exLoopPayload : InboundPayload :=
  { exPayload with fromEmail := "amy@dom.com", fromName := "Amy" }

/-- A fresh organizer request with participants in To. -/
def exNewPayload : InboundPayload :=
  { exPayload with toFull := ["p1@x.com", "amy@dom.com"] }

/-- A fresh request whose participants appear only in the body block. -/
def exFallbackPayload : InboundPayload :=
  { exPayload with textBody := "Participants:\n- amy+abc@dom.com\n\nThanks" }


/-! ## Claim C1 — routing-token resolution wins over In-Reply-To -/

/-- C1: for every inbound message carrying a syntactically valid routing
token (MailboxHash longer than 10 characters) that identifies an existing
session, and whose In-Reply-To also matches a stored message, session
resolution returns the session identified by the token; the In-Reply-To
fallback is consulted only when the token lookup yields no session. -/
theorem C1_routing_token_wins (w : WorldState) (hash irt : String) (s : Session)
    (m : StoredMessage)
    (hlen : 10 < hash.length) (hfind : findSession w hash = some s)
    (_hmsg : w.messages.find? (fun m' => m'.postmark_message_id == cleanInReplyTo irt)
        = some m) :
    resolveSessionId w hash (some irt) = some hash ∧
      ∀ (w' : WorldState) (h' : String) (irt' : Option String),
        ¬(10 < h'.length ∧ (findSession w' h').isSome = true) →
          resolveSessionId w' h' irt' = inReplyToLookup w' irt' := by
  constructor
  · unfold resolveSessionId
    have hc : (hash.length > 10 && (findSession w hash).isSome) = true := by
      rw [hfind]
      simp [hlen]
    rw [if_pos hc]
  · intro w' h' irt' hno
    unfold resolveSessionId
    rw [if_neg]
    simp only [Bool.and_eq_true, decide_eq_true_eq]
    exact fun hc => hno ⟨hc.1, hc.2⟩

theorem C1_routing_token_wins_witness :
    resolveSessionId exWorld "sess-0123456789" (some "<mid-1@pm.dom>")
      = some "sess-0123456789" :=
  (C1_routing_token_wins exWorld "sess-0123456789" "<mid-1@pm.dom>" exSession
      ⟨"sess-0123456789", "mid-1", "org@x.com", "human_organizer", "hello"⟩
      (by decide) (by decide) (by decide)).1

/-! ## Claim C3 — loop containment -/

/-- C3: an inbound message whose sender equals the assistant's own
configured address and which lacks a valid routing token (MailboxHash
shorter than 10 characters, or absent) mutates no session, adds no message
to any session history and sends nothing; the payload is appended to the
quarantine store of discarded agent emails and processing stops with the
`discarded_agent_loop_detected` acknowledgement. -/
theorem C3_loop_containment (agentEmail : String) (send : String → Option String)
    (ai : AiDecision) (now : Nat) (w : WorldState) (p : InboundPayload)
    (hne : p.fromEmail ≠ "") (hfrom : lowerS p.fromEmail = agentEmail)
    (hhash : p.mailboxHash.length < 10) :
    processInbound agentEmail send ai now w p
      = ({ w with quarantine := w.quarantine ++ [quarantineOf p] },
          .discardedAgentLoop) := by
  unfold processInbound
  rw [if_neg hne, if_pos ⟨hfrom, hhash⟩]

theorem C3_loop_containment_witness :
    (processInbound exAgent exOkSend ⟨.no_action_needed, [], ""⟩ 7 exWorld exLoopPayload).2
        = .discardedAgentLoop ∧
      (processInbound exAgent exOkSend ⟨.no_action_needed, [], ""⟩ 7 exWorld
          exLoopPayload).1.quarantine = [quarantineOf exLoopPayload] ∧
      (processInbound exAgent exOkSend ⟨.no_action_needed, [], ""⟩ 7 exWorld
          exLoopPayload).1.sessions = exWorld.sessions := by
  have h := C3_loop_containment exAgent exOkSend ⟨.no_action_needed, [], ""⟩ 7 exWorld
    exLoopPayload (by decide) (by decide) (by decide)
  rw [h]
  exact ⟨rfl, rfl, rfl⟩

/-! ## Claim C10 — batch-send loop swallows later failures -/

/-- C10: when `sendSchedulingEmail` sends individually to more than one
recipient, the returned value is exactly the outcome of the *first*
recipient's send: a failure on any later recipient is caught and ignored
(and every remaining recipient is still attempted), so the caller receives
the first provider message id as a success result; only a failure on the
first recipient's send produces the `none` failure result. -/
theorem C10_first_send_decides (agentEmail : String) (send : String → Option String)
    (a : String) (rest : List String) (subject textBody sessionId trig : String)
    (refs : Option String) (hrest : rest ≠ []) :
    (sendSchedulingEmail agentEmail send (a :: rest) subject textBody sessionId trig
        refs false).1 = send a ∧
      (send a ≠ none →
        ((sendSchedulingEmail agentEmail send (a :: rest) subject textBody sessionId trig
            refs false).2).map (fun c => c.toField) = a :: rest) := by
  unfold sendSchedulingEmail
  dsimp only
  simp only [ne_eq, hrest, not_false_eq_true, decide_True, Bool.true_and, Bool.and_false,
    Bool.false_eq_true, if_false]
  cases hs : send a with
  | none => exact ⟨rfl, fun hne => absurd rfl hne⟩
  | some id =>
      refine ⟨rfl, fun _ => ?_⟩
      have hmap : ∀ (l : List String) (subj body rto : String)
          (hd : List (String × String)),
          (l.map (fun r => (⟨r, subj, body, rto, hd⟩ : SendCall))).map
              (fun c => c.toField) = l := by
        intro l subj body rto hd
        induction l with
        | nil => rfl
        | cons x t ih => simp [ih]
      simp [hmap]

theorem C10_first_send_decides_witness :
    (sendSchedulingEmail exAgent (fun t => if t = "b@x" then none else some ("id-" ++ t))
        ["a@x", "b@x"] "S" "B" "sid" "trig" none false).1 = some "id-a@x" := by
  have h := (C10_first_send_decides exAgent
    (fun t => if t = "b@x" then none else some ("id-" ++ t))
    "a@x" ["b@x"] "S" "B" "sid" "trig" none (by decide)).1
  rw [h]
  decide


/-! ## Claim C4 — failed send must not persist the assistant message -/

/-- C4 counterexample: in the superseded prototype handler
(`src/app/api/schedule/route.ts`), a run whose outbound send fails (the
send result is `none`) still persists the assistant message row, with an
empty (`null`) provider message id — the claim as stated over that cited
code is false. -/
theorem C4_counterexample :
    (protoSendAndSave "amy@dom.com" failSend
        ⟨.propose_time_to_organizer, ["org@x.com"], "Hi"⟩ "sid-1" []).2 = none ∧
      (protoSendAndSave "amy@dom.com" failSend
          ⟨.propose_time_to_organizer, ["org@x.com"], "Hi"⟩ "sid-1" []).1
        = [⟨"sid-1", "", "amy@dom.com", "ai_agent", "Hi"⟩] := by
  decide

/-- C4 amended: in the canonical webhook handler (`part_001`), when the
outbound send fails the assistant message is not persisted — the only row
added to the message history is the incoming message; in general, an
assistant (`ai_agent`) row is written only together with a provider
message id returned by the send. -/
theorem C4_no_assistant_row_without_send (agentEmail : String) (ai : AiDecision)
    (now : Nat) (p : InboundPayload) (w : WorldState) (sid : String) (s : Session) :
    ((handleResolved agentEmail failSend ai now p w sid s).1).messages
        = w.messages ++ [incomingMessageOf p now sid s] ∧
      ∀ send : String → Option String,
        ((handleResolved agentEmail send ai now p w sid s).1).messages
            = w.messages ++ [incomingMessageOf p now sid s] ∨
          ∃ oid : String,
            ((handleResolved agentEmail send ai now p w sid s).1).messages
              = w.messages ++ [incomingMessageOf p now sid s]
                ++ [⟨sid, oid, agentEmail, "ai_agent", ai.email_body⟩] :=
  ⟨handleResolved_messages_failSend agentEmail ai now p w sid s,
    fun send => handleResolved_messages agentEmail send ai now p w sid s⟩

/-! ## Claim C5 — agent-address recipient filter -/

/-- C5 counterexample: with the decision engine returning
`propose_time_to_organizer` and `recipients = [assistant address]`, one
email *is* sent — the workflow replaces the engine's recipients by the
session organizer for organizer-directed steps, so "zero emails sent for
any nextStep" is false as stated. -/
theorem C5_counterexample :
    ((processInbound exAgent exOkSend ⟨.propose_time_to_organizer, ["amy@dom.com"], "Hi"⟩
        7 exWorld exOrganizerReply).1.outbox).map (fun c => c.toField) = ["org@x.com"] := by
  decide

/-- C5 amended: the workflow always removes the assistant's bare and
routing-token addresses from the final recipient list, for every decision
and nextStep; when the nextStep is one of the participant-directed steps
(the only ones that use the engine's recipient list), engine recipients
consisting solely of assistant addresses leave the final list empty and
zero emails are sent.  (For organizer-directed and final-confirmation
steps the engine's recipients are ignored in favour of session-derived
addresses, so an email may still go out — never to the assistant.) -/
theorem C5_agent_filter (agentEmail : String) :
    (∀ (organizer : String) (details : List ParticipantStatusDetail) (d : AiDecision)
        (e : String), e ∈ finalRecipientsFor agentEmail organizer details d →
          ¬(lowerS e = agentEmail) ∧ isAgentHashed agentEmail e = false) ∧
      ∀ (send : String → Option String) (ai : AiDecision) (now : Nat)
        (p : InboundPayload) (w : WorldState) (sid : String) (s : Session),
        (ai.next_step = .ask_participant_availability ∨
          ai.next_step = .propose_time_to_participant) →
        (∀ e ∈ ai.recipients, lowerS e = agentEmail ∨ isAgentHashed agentEmail e = true) →
        (∀ details, finalRecipientsFor agentEmail s.organizer_email details ai = []) ∧
          ((handleResolved agentEmail send ai now p w sid s).1).outbox = w.outbox := by
  constructor
  · intro organizer details d e he
    unfold finalRecipientsFor agentFilter at he
    rcases List.mem_filter.mp he with ⟨_, hpred⟩
    simp only [Bool.and_eq_true, Bool.not_eq_true'] at hpred
    refine ⟨?_, hpred.2⟩
    intro hcontra
    rw [← beq_iff_eq (a := lowerS e) (b := agentEmail)] at hcontra
    rw [hpred.1] at hcontra
    exact Bool.false_ne_true hcontra
  · intro send ai now p w sid s hstep hrec
    have hempty : ∀ details, finalRecipientsFor agentEmail s.organizer_email details ai = [] := by
      intro details
      unfold finalRecipientsFor agentFilter
      apply List.filter_eq_nil_iff.mpr
      intro e he
      have hmem : e ∈ ai.recipients := by
        unfold preRecipients at he
        have hcase : e ∈ (if s.organizer_email ≠ ""
            then ai.recipients.filter (fun r => !(lowerS r == lowerS s.organizer_email))
            else ai.recipients) := by
          rcases hstep with hstep | hstep
          · rw [hstep] at he; exact he
          · rw [hstep] at he; exact he
        by_cases ho : s.organizer_email ≠ ""
        · rw [if_pos ho] at hcase
          exact (List.mem_filter.mp hcase).1
        · rw [if_neg ho] at hcase
          exact hcase
      rcases hrec e hmem with h | h
      · simp [h]
      · simp [h]
    refine ⟨hempty, ?_⟩
    rcases incomingMessageOf_message_type p now sid s with hmt | hmt
    · rw [handleResolved_organizer agentEmail send ai now p w sid s hmt]
      rw [executeDecision_outbox_skip _ _ _ _ _ _ _ _ _ (hempty s.participant_status_details)]
    · by_cases hall : ((gateUpdate s.participant_status_details p.fromEmail).all
          (fun q => q.status == "received")) = true
      · rw [handleResolved_participant_all agentEmail send ai now p w sid s hmt hall]
        rw [executeDecision_outbox_skip _ _ _ _ _ _ _ _ _
          (hempty (gateUpdate s.participant_status_details p.fromEmail))]
        simp
      · rw [handleResolved_wait agentEmail send ai now p w sid s hmt
          (Bool.eq_false_iff.mpr hall)]
        simp

theorem C5_agent_filter_witness :
    finalRecipientsFor exAgent "org@x.com" []
        ⟨.ask_participant_availability, ["amy@dom.com", "amy+tok@dom.com"], "Hi"⟩ = [] := by
  have h := ((C5_agent_filter exAgent).2 exOkSend
    ⟨.ask_participant_availability, ["amy@dom.com", "amy+tok@dom.com"], "Hi"⟩ 7
    exPayload exWorld "sess-0123456789" exSession (Or.inl rfl) (by decide)).1
  exact h []


/-! ## Claim C6 — new-session participant extraction -/

/-- C6 counterexample: with no To/Cc participants, the body-text
fallback extracts the assistant's own routing-token address
`amy+abc@dom.com` into the participant set — the fallback path does *not*
apply the routing-token exclusion, so "the same sender/assistant
exclusions" is false as stated. -/
theorem C6_counterexample :
    toCcParticipants exAgent exFallbackPayload = [] ∧
      newSessionParticipants exAgent exFallbackPayload = ["amy+abc@dom.com"] ∧
      isAgentHashed exAgent "amy+abc@dom.com" = true := by
  decide

/-- C6 amended: the participant set of a new session is the
deduplicated union of To and Cc minus the sender and minus the
assistant's bare and routing-token addresses, and as a set it is
independent of the order in which addresses appear; when this set is
empty, participants are extracted from a `Participants:` block of the
body, excluding the sender and the assistant's *bare* address only (the
routing-token variant is not excluded on the fallback path). -/
theorem C6_participant_extraction (agentEmail : String) (p : InboundPayload) :
    (∀ e : String, e ∈ toCcParticipants agentEmail p ↔
        (e ∈ p.toFull ++ p.ccFull ∧ ¬(lowerS e = lowerS p.fromEmail) ∧
          ¬(lowerS e = agentEmail) ∧ isAgentHashed agentEmail e = false)) ∧
      (∀ p2 : InboundPayload, p.fromEmail = p2.fromEmail →
        (p.toFull ++ p.ccFull).Perm (p2.toFull ++ p2.ccFull) →
        ∀ e : String, e ∈ toCcParticipants agentEmail p ↔
          e ∈ toCcParticipants agentEmail p2) ∧
      (toCcParticipants agentEmail p = [] →
        newSessionParticipants agentEmail p
          = (fallbackExtract p.textBody).filter (fun e =>
              !(lowerS e == lowerS p.fromEmail) && !(lowerS e == agentEmail))) := by
  have hmem : ∀ (q : InboundPayload) (e : String),
      e ∈ toCcParticipants agentEmail q ↔
        (e ∈ q.toFull ++ q.ccFull ∧ ¬(lowerS e = lowerS q.fromEmail) ∧
          ¬(lowerS e = agentEmail) ∧ isAgentHashed agentEmail e = false) := by
    intro q e
    unfold toCcParticipants
    rw [List.mem_filter, mem_dedupKeepFirst]
    simp only [Bool.and_eq_true, Bool.not_eq_true', beq_eq_false_iff_ne, ne_eq]
    constructor
    · rintro ⟨h1, ⟨h2, h3⟩, h4⟩
      exact ⟨h1, h2, h3, by simpa using h4⟩
    · rintro ⟨h1, h2, h3, h4⟩
      exact ⟨h1, ⟨h2, h3⟩, by simpa using h4⟩
  refine ⟨hmem p, ?_, ?_⟩
  · intro p2 hfrom hperm e
    rw [hmem p, hmem p2, hfrom, hperm.mem_iff]
  · intro hempty
    unfold newSessionParticipants
    rw [hempty]
    simp

theorem C6_participant_extraction_witness :
    newSessionParticipants exAgent exFallbackPayload
      = (fallbackExtract exFallbackPayload.textBody).filter (fun e =>
          !(lowerS e == lowerS exFallbackPayload.fromEmail) &&
            !(lowerS e == exAgent)) := by
  exact (C6_participant_extraction exAgent exFallbackPayload).2.2 (by decide)

/-! ## Claim C8 — redelivery is not deduplicated -/

/-- C8 counterexample: delivering the identical payload twice is *not*
idempotent — the second delivery of an organizer request (no routing
token, no In-Reply-To match) creates a second session and triggers a
second outbound send; the code performs no message-id deduplication. -/
theorem C8_counterexample :
    ((processInbound exAgent exOkSend ⟨.ask_participant_availability, ["p1@x.com"], "Hi"⟩
          7 ⟨[], [], [], []⟩ exNewPayload).1).sessions.length = 1 ∧
      ((processInbound exAgent exOkSend ⟨.ask_participant_availability, ["p1@x.com"], "Hi"⟩
            7
            (processInbound exAgent exOkSend
              ⟨.ask_participant_availability, ["p1@x.com"], "Hi"⟩ 7 ⟨[], [], [], []⟩
              exNewPayload).1
            exNewPayload).1).sessions.length = 2 ∧
      ((processInbound exAgent exOkSend ⟨.ask_participant_availability, ["p1@x.com"], "Hi"⟩
            7
            (processInbound exAgent exOkSend
              ⟨.ask_participant_availability, ["p1@x.com"], "Hi"⟩ 7 ⟨[], [], [], []⟩
              exNewPayload).1
            exNewPayload).1).outbox.length = 2 := by
  decide

/-- C8 amended: there is no application-level message-id
deduplication: every delivery whose payload resolves to no session (no
valid routing-token match and no In-Reply-To match) creates a fresh
session row — in particular a redelivered copy of such a payload creates
a second session rather than leaving the store unchanged. -/
theorem C8_no_dedup_creates_session (agentEmail : String) (send : String → Option String)
    (ai : AiDecision) (now : Nat) (w : WorldState) (p : InboundPayload)
    (hne : p.fromEmail ≠ "")
    (hguard : ¬(lowerS p.fromEmail = agentEmail ∧ p.mailboxHash.length < 10))
    (hres : resolveSessionId w p.mailboxHash p.inReplyToHeader = none) :
    ((processInbound agentEmail send ai now w p).1).sessions.length
      = w.sessions.length + 1 := by
  rw [processInbound_new agentEmail send ai now w p hne hguard hres]
  rw [handleResolved_sessions_length]
  simp

theorem C8_no_dedup_creates_session_witness :
    ((processInbound exAgent exOkSend ⟨.ask_participant_availability, ["p1@x.com"], "Hi"⟩
        7 exWorld exNewPayload).1).sessions.length = exWorld.sessions.length + 1 :=
  C8_no_dedup_creates_session exAgent exOkSend
    ⟨.ask_participant_availability, ["p1@x.com"], "Hi"⟩ 7 exWorld exNewPayload
    (by decide) (by decide) (by decide)


/-! ## Claim C2 — participant response gate -/

/-- C2: an inbound participant reply is always persisted and the
sender's tracked entry set to `received`; while some tracked participant
is still not `received` after the update, the run stops with the waiting
acknowledgement — no decision-engine call (the result is independent of
the engine's output), no outbound email, and the session status
unchanged; only when the reply makes all tracked participants `received`
does processing proceed, and when the engine then contacts the organizer
(`propose_time_to_organizer`) exactly one email is sent to the organizer
and the session status becomes `pending_organizer_confirmation`. -/
theorem C2_response_gate (agentEmail : String) (send : String → Option String)
    (ai : AiDecision) (now : Nat) (w : WorldState) (p : InboundPayload) (sid : String)
    (s : Session)
    (hne : p.fromEmail ≠ "")
    (hguard : ¬(lowerS p.fromEmail = agentEmail ∧ p.mailboxHash.length < 10))
    (hres : resolveSessionId w p.mailboxHash p.inReplyToHeader = some sid)
    (hfind : findSession w sid = some s)
    (hpart : ¬(s.organizer_email ≠ "" ∧ p.fromEmail = s.organizer_email)) :
    (incomingMessageOf p now sid s ∈ (processInbound agentEmail send ai now w p).1.messages) ∧
      (((gateUpdate s.participant_status_details p.fromEmail).all
          (fun q => q.status == "received")) = false →
        (processInbound agentEmail send ai now w p).2 = .waitingForOthers ∧
          (processInbound agentEmail send ai now w p).1.outbox = w.outbox ∧
          (∀ ai' : AiDecision, processInbound agentEmail send ai' now w p
              = processInbound agentEmail send ai now w p) ∧
          findSession (processInbound agentEmail send ai now w p).1 sid
            = some { s with participant_status_details := gateUpdate s.participant_status_details p.fromEmail }) ∧
      (((gateUpdate s.participant_status_details p.fromEmail).all
          (fun q => q.status == "received")) = true →
        (processInbound agentEmail send ai now w p).2 = .success ai ∧
          (ai.next_step = .propose_time_to_organizer → s.organizer_email ≠ "" →
            trimS ai.email_body ≠ "" →
            agentFilter agentEmail [s.organizer_email] = [s.organizer_email] →
            ((findSession (processInbound agentEmail send ai now w p).1 sid).map
                (fun t => t.status) = some "pending_organizer_confirmation" ∧
              ∃ c : SendCall, (processInbound agentEmail send ai now w p).1.outbox
                  = w.outbox ++ [c] ∧ c.toField = s.organizer_email))) := by
  have hdisp := processInbound_resolved agentEmail send ai now w p sid s hne hguard hres hfind
  have hmt : (incomingMessageOf p now sid s).message_type = "human_participant" := by
    unfold incomingMessageOf
    dsimp only
    rw [if_neg hpart]
  refine ⟨?_, ?_, ?_⟩
  · rw [hdisp]
    rcases handleResolved_messages agentEmail send ai now p w sid s with h | ⟨oid, h⟩
    · rw [h]; simp
    · rw [h]; simp
  · intro hall
    have hwait := handleResolved_wait agentEmail send ai now p w sid s hmt hall
    refine ⟨by rw [hdisp, hwait], by rw [hdisp, hwait]; simp, ?_, ?_⟩
    · intro ai'
      have hdisp' := processInbound_resolved agentEmail send ai' now w p sid s hne hguard
        hres hfind
      rw [hdisp, hwait, hdisp',
        handleResolved_wait agentEmail send ai' now p w sid s hmt hall]
    · rw [hdisp, hwait]
      dsimp only
      rw [findSession_updateSession]
      · have hw : findSession
            { w with messages := w.messages ++ [incomingMessageOf p now sid s] } sid
            = findSession w sid := rfl
        rw [hw, hfind]
        rfl
      · intro t; rfl
  · intro hall
    have hpa := handleResolved_participant_all agentEmail send ai now p w sid s hmt hall
    refine ⟨by rw [hdisp, hpa], ?_⟩
    intro hstep horg hbody hfilter
    have h1 : findSession
        (updateSession { w with messages := w.messages ++ [incomingMessageOf p now sid s] }
          sid
          (fun t => { t with participant_status_details := gateUpdate s.participant_status_details p.fromEmail }))
        sid = some { s with participant_status_details := gateUpdate s.participant_status_details p.fromEmail } := by
      rw [findSession_updateSession]
      · have hw : findSession
            { w with messages := w.messages ++ [incomingMessageOf p now sid s] } sid
            = findSession w sid := rfl
        rw [hw, hfind]
        rfl
      · intro t; rfl
    have h2 : findSession
        (updateSession
          (updateSession { w with messages := w.messages ++ [incomingMessageOf p now sid s] }
            sid
            (fun t => { t with participant_status_details := gateUpdate s.participant_status_details p.fromEmail }))
          sid (fun t => { t with status := "pending_organizer_confirmation" }))
        sid = some { { s with participant_status_details := gateUpdate s.participant_status_details p.fromEmail } with status := "pending_organizer_confirmation" } := by
      rw [findSession_updateSession]
      · rw [h1]
        rfl
      · intro t; rfl
    constructor
    · rw [hdisp, hpa]
      have h3 := executeDecision_status agentEmail send ai now p _ sid s _
        (gateUpdate s.participant_status_details p.fromEmail) h2
      rw [h3, hstep]
      rfl
    · rw [hdisp, hpa]
      dsimp only
      rw [executeDecision_outbox]
      have hpre : preRecipients s.organizer_email
          (gateUpdate s.participant_status_details p.fromEmail) ai = [s.organizer_email] := by
        unfold preRecipients
        rw [hstep]
        dsimp only
        rw [if_pos horg]
      rw [hpre, hfilter]
      rw [sendStage_outbox_eq _ _ _ _ _ _ _ _ ⟨by simp, hbody⟩]
      rw [requestTimestampStage_outbox]
      obtain ⟨c, hc, ht⟩ := sendSchedulingEmail_calls_single agentEmail send
        s.organizer_email [] (if startsWithS (effectiveSubject p) "Re:" then effectiveSubject p
          else "Re: " ++ effectiveSubject p) ai.email_body sid (actualMessageId p now)
        p.referencesHeader (ai.next_step == NextStep.send_final_confirmation) (Or.inl rfl)
      refine ⟨c, ?_, ?_⟩
      · rw [hc]
        simp [updateSession]
      · rw [ht, intercalate_singleton]

theorem C2_response_gate_witness :
    (processInbound exAgent exOkSend ⟨.no_action_needed, [], ""⟩ 7 exWorld exReplyP1).2
        = .waitingForOthers ∧
      (processInbound exAgent exOkSend ⟨.no_action_needed, [], ""⟩ 7 exWorld
          exReplyP1).1.outbox = exWorld.outbox := by
  have h := ((C2_response_gate exAgent exOkSend ⟨.no_action_needed, [], ""⟩ 7 exWorld
    exReplyP1 "sess-0123456789" exSession (by decide) (by decide) (by decide) (by decide)
    (by decide)).2.1 (by decide))
  exact ⟨h.1, h.2.1⟩


/-! ## Claim C9 — executor transition table and final broadcast -/

/-- C9: on the full-processing path the session status written at the
end of the run follows the transition table of the `nextSessionStatus`
switch — `ask_participant_availability` / `propose_time_to_participant`
give `pending_participant_response`; `propose_time_to_organizer` /
`request_clarification` give `pending_organizer_confirmation`;
`send_final_confirmation` gives `confirmed`; `error_cannot_schedule`
gives `error`; `no_action_needed` leaves the run-start status — and a
final confirmation goes out as a single broadcast call addressed to the
deduplicated organizer-plus-participants list. -/
theorem C9_transition_table (agentEmail : String) (send : String → Option String)
    (ai : AiDecision) (now : Nat) (w : WorldState) (p : InboundPayload) (sid : String)
    (s : Session)
    (hne : p.fromEmail ≠ "")
    (hguard : ¬(lowerS p.fromEmail = agentEmail ∧ p.mailboxHash.length < 10))
    (hres : resolveSessionId w p.mailboxHash p.inReplyToHeader = some sid)
    (hfind : findSession w sid = some s)
    (horg : s.organizer_email ≠ "" ∧ p.fromEmail = s.organizer_email) :
    (processInbound agentEmail send ai now w p).2 = .success ai ∧
      ((findSession (processInbound agentEmail send ai now w p).1 sid).map
          (fun t => t.status) = some (nextSessionStatus ai.next_step s.status)) ∧
      (∀ cur : String,
        nextSessionStatus .ask_participant_availability cur = "pending_participant_response" ∧
        nextSessionStatus .propose_time_to_participant cur = "pending_participant_response" ∧
        nextSessionStatus .propose_time_to_organizer cur = "pending_organizer_confirmation" ∧
        nextSessionStatus .request_clarification cur = "pending_organizer_confirmation" ∧
        nextSessionStatus .send_final_confirmation cur = "confirmed" ∧
        nextSessionStatus .error_cannot_schedule cur = "error" ∧
        nextSessionStatus .no_action_needed cur = cur) ∧
      (ai.next_step = .send_final_confirmation → trimS ai.email_body ≠ "" →
        ∀ (a : String) (rest : List String),
          finalRecipientsFor agentEmail s.organizer_email s.participant_status_details ai
              = a :: rest →
          ∃ c : SendCall, (processInbound agentEmail send ai now w p).1.outbox
              = w.outbox ++ [c] ∧ c.toField = String.intercalate ", " (a :: rest)) := by
  have hdisp := processInbound_resolved agentEmail send ai now w p sid s hne hguard hres hfind
  have hmt : (incomingMessageOf p now sid s).message_type = "human_organizer" := by
    unfold incomingMessageOf
    dsimp only
    rw [if_pos horg]
  have horglem := handleResolved_organizer agentEmail send ai now p w sid s hmt
  have h2 : findSession
      { w with messages := w.messages ++ [incomingMessageOf p now sid s] } sid
      = some s := hfind
  refine ⟨by rw [hdisp, horglem], ?_, ?_, ?_⟩
  · rw [hdisp, horglem]
    exact executeDecision_status agentEmail send ai now p _ sid s s
      s.participant_status_details h2
  · intro cur
    exact ⟨rfl, rfl, rfl, rfl, rfl, rfl, rfl⟩
  · intro hstep hbody a rest hfr
    unfold finalRecipientsFor at hfr
    rw [hdisp, horglem]
    dsimp only
    rw [executeDecision_outbox, hfr]
    rw [sendStage_outbox_eq _ _ _ _ _ _ _ _ ⟨by simp, hbody⟩]
    rw [requestTimestampStage_outbox]
    obtain ⟨c, hc, ht⟩ := sendSchedulingEmail_calls_single agentEmail send a rest
      (if startsWithS (effectiveSubject p) "Re:" then effectiveSubject p
        else "Re: " ++ effectiveSubject p) ai.email_body sid (actualMessageId p now)
      p.referencesHeader (ai.next_step == NextStep.send_final_confirmation)
      (Or.inr (by rw [hstep]; rfl))
    refine ⟨c, ?_, ht⟩
    rw [hc]

theorem C9_transition_table_witness :
    (processInbound exAgent exOkSend ⟨.send_final_confirmation, [], "Done"⟩ 7 exWorld
        exOrganizerReply).2 = .success ⟨.send_final_confirmation, [], "Done"⟩ ∧
      (findSession (processInbound exAgent exOkSend ⟨.send_final_confirmation, [], "Done"⟩
          7 exWorld exOrganizerReply).1 "sess-0123456789").map (fun t => t.status)
        = some "confirmed" ∧
      ∃ c : SendCall, (processInbound exAgent exOkSend
            ⟨.send_final_confirmation, [], "Done"⟩ 7 exWorld exOrganizerReply).1.outbox
          = [c] ∧ c.toField = "org@x.com, p1@x.com, p2@x.com" := by
  have h := C9_transition_table exAgent exOkSend ⟨.send_final_confirmation, [], "Done"⟩ 7
    exWorld exOrganizerReply "sess-0123456789" exSession (by decide) (by decide)
    (by decide) (by decide) (by decide)
  refine ⟨h.1, ?_, ?_⟩
  · rw [h.2.1]
    rfl
  · obtain ⟨c, hc, ht⟩ := h.2.2.2 rfl (by decide) "org@x.com" ["p1@x.com", "p2@x.com"]
      (by decide)
    refine ⟨c, ?_, ?_⟩
    · rw [hc]
      rfl
    · rw [ht]
      rfl


/-! ## Claim C7 — nudge state advances one step, only on successful send -/

/-- The forward edges of the nudge track. -/
def nudgeAdvancePairs : List (String × String) :=
  [("pending", "nudged_1"), ("nudged_1", "nudged_2"), ("nudged_2", "escalated")]

/-- The elapsed-minutes threshold guarding each advance. -/
def nudgeThreshold : String → Nat
  | "pending" => NUDGE1_THRESHOLD_MINUTES
  | "nudged_1" => NUDGE2_THRESHOLD_MINUTES
  | "nudged_2" => ESCALATION_THRESHOLD_MINUTES
  | _ => 0

/-- C7: in a nudge sweep a participant's entry either stays exactly as
it was or advances one step along pending → nudged_1 → nudged_2 →
escalated; any change implies the corresponding elapsed-time threshold
was crossed, the reminder (or, for escalation, the organizer
notification) send returned a provider id, and the status and
`last_request_sent_at` timestamp were updated together; a failed send
leaves the entry unchanged for the next sweep. -/
theorem C7_nudge_monotone (agentEmail : String) (send : String → Option String)
    (organizerEmail meetingTopic sessionId : String) (now : Nat)
    (q : ParticipantStatusDetail) :
    ((nudgeParticipant agentEmail send organizerEmail meetingTopic sessionId now
          q).participant = q ∨
        (q.status, (nudgeParticipant agentEmail send organizerEmail meetingTopic sessionId
          now q).participant.status) ∈ nudgeAdvancePairs) ∧
      ((nudgeParticipant agentEmail send organizerEmail meetingTopic sessionId now
          q).participant ≠ q →
        (q.status, (nudgeParticipant agentEmail send organizerEmail meetingTopic sessionId
            now q).participant.status) ∈ nudgeAdvancePairs ∧
          (nudgeParticipant agentEmail send organizerEmail meetingTopic sessionId now
            q).participant.last_request_sent_at = some now ∧
          (∃ last : Nat, q.last_request_sent_at = some last ∧
            nudgeThreshold q.status ≤ (now - last) / 60000) ∧
          ∃ id : String,
            send (if q.status = "nudged_2" then organizerEmail else q.email) = some id) ∧
      ((∀ x, send x = none) →
        (nudgeParticipant agentEmail send organizerEmail meetingTopic sessionId now
          q).participant = q) := by
  by_cases h0 : q.status = "received" ∨ q.last_request_sent_at = none
  · unfold nudgeParticipant
    rw [if_pos h0]
    exact ⟨Or.inl rfl, fun hne => absurd rfl hne, fun _ => rfl⟩
  · have h0' := h0
    push_neg at h0'
    obtain ⟨hrecv, hlastne⟩ := h0'
    obtain ⟨last, hlast⟩ := Option.ne_none_iff_exists'.mp hlastne
    unfold nudgeParticipant
    rw [if_neg h0]
    dsimp only
    by_cases n1 : q.status = "pending" ∧
        NUDGE1_THRESHOLD_MINUTES ≤ (now - q.last_request_sent_at.getD 0) / 60000
    · obtain ⟨hs, hm⟩ := n1
      rw [hlast] at hm
      simp only [Option.getD_some] at hm
      simp only [hs, hm, hlast, Option.getD_some, and_true, true_and, if_true,
        String.reduceEq, and_false, false_and, if_false, ite_true, ite_false]
      rw [sendSchedulingEmail_single_result]
      cases hsend : send q.email with
      | none =>
          exact ⟨Or.inl rfl, fun hne => absurd rfl hne, fun _ => rfl⟩
      | some id =>
          refine ⟨Or.inr (by simp [nudgeAdvancePairs]), fun _ => ?_, fun hnone => ?_⟩
          · exact ⟨by simp [nudgeAdvancePairs], rfl, ⟨last, rfl, hm⟩, ⟨id, rfl⟩⟩
          · rw [hnone q.email] at hsend
            exact absurd hsend (by simp)
    · by_cases n2 : q.status = "nudged_1" ∧
          NUDGE2_THRESHOLD_MINUTES ≤ (now - q.last_request_sent_at.getD 0) / 60000
      · obtain ⟨hs, hm⟩ := n2
        rw [hlast] at hm
        simp only [Option.getD_some] at hm
        simp only [hs, hm, hlast, Option.getD_some, and_true, true_and, if_true,
          String.reduceEq, and_false, false_and, if_false, ite_true, ite_false]
        rw [sendSchedulingEmail_single_result]
        cases hsend : send q.email with
        | none =>
            exact ⟨Or.inl rfl, fun hne => absurd rfl hne, fun _ => rfl⟩
        | some id =>
            refine ⟨Or.inr (by simp [nudgeAdvancePairs]), fun _ => ?_, fun hnone => ?_⟩
            · exact ⟨by simp [nudgeAdvancePairs], rfl, ⟨last, rfl, hm⟩, ⟨id, rfl⟩⟩
            · rw [hnone q.email] at hsend
              exact absurd hsend (by simp)
      · by_cases n3 : q.status = "nudged_2" ∧
            ESCALATION_THRESHOLD_MINUTES ≤ (now - q.last_request_sent_at.getD 0) / 60000
        · obtain ⟨hs, hm⟩ := n3
          rw [hlast] at hm
          simp only [Option.getD_some] at hm
          simp only [hs, hm, hlast, Option.getD_some, and_true, true_and, if_true,
            String.reduceEq, and_false, false_and, if_false, ite_true, ite_false]
          rw [sendSchedulingEmail_single_result]
          cases hsend : send organizerEmail with
          | none =>
              exact ⟨Or.inl rfl, fun hne => absurd rfl hne, fun _ => rfl⟩
          | some id =>
              refine ⟨Or.inr (by simp [nudgeAdvancePairs]), fun _ => ?_, fun hnone => ?_⟩
              · exact ⟨by simp [nudgeAdvancePairs], rfl, ⟨last, rfl, hm⟩, ⟨id, rfl⟩⟩
              · rw [hnone organizerEmail] at hsend
                exact absurd hsend (by simp)
        · rw [if_neg n1, if_neg n2, if_neg n3, if_pos rfl]
          exact ⟨Or.inl rfl, fun hne => absurd rfl hne, fun _ => rfl⟩

theorem C7_nudge_monotone_witness :
    (nudgeParticipant exAgent failSend "org@x.com" "Sync" "sess-0123456789" 60000
        ⟨"p1@x.com", "pending", some 0⟩).participant = ⟨"p1@x.com", "pending", some 0⟩ :=
  (C7_nudge_monotone exAgent failSend "org@x.com" "Sync" "sess-0123456789" 60000
      ⟨"p1@x.com", "pending", some 0⟩).2.2 (fun _ => rfl)

end Scheduler
